import Mathlib

/-!
Verification development for the Rcpp export-generation subsystem and the
`operator-` sugar expression templates.

The embedding follows the C++ sources: the sugar classes in
`inst/include/Rcpp/sugar/operators/minus.h` and the generator hierarchy plus
default-argument translation in `AttributesGen.cpp`.  Pure helpers become Lean
functions; stream output becomes explicit string accumulation; the file system
is an explicit `Option String` (content of the one target file of a generator).
-/

namespace Rcpp

/-! ## Sugar expression templates (minus.h)

The C++ classes are templates over `RTYPE` (which fixes a storage type, an
`is_na` test from `Rcpp::traits` and the subtraction of the storage type).
We model that template parameter by a bundle `RTypeTraits` and a vector by its
`size()` and unchecked `operator[]`. -/

structure RTypeTraits (α : Type) where
  isNA : α → Bool
  sub : α → α → α

structure VectorModel (α : Type) where
  size : Int
  get : Int → α

/-- `Minus_Vector_Vector<RTYPE, true, LHS_T, true, RHS_T>` (primary template,
both operands NA-capable): holds references to both operands. -/
structure Minus_Vector_Vector (α : Type) where
  tr : RTypeTraits α
  lhs : VectorModel α
  rhs : VectorModel α

/-- `operator[]` of the primary `Minus_Vector_Vector` template:
`x = lhs[i]; if (is_na(x)) return x; y = rhs[i]; return is_na(y) ? y : x - y;` -/
def Minus_Vector_Vector.get {α : Type} (m : Minus_Vector_Vector α) (i : Int) : α :=
  let x := m.lhs.get i
  if m.tr.isNA x then x
  else
    let y := m.rhs.get i
    if m.tr.isNA y then y else m.tr.sub x y

/-- `size()` of `Minus_Vector_Vector`: `return lhs.size();` -/
def Minus_Vector_Vector.size {α : Type} (m : Minus_Vector_Vector α) : Int :=
  m.lhs.size

/-- `Minus_Primitive_Vector<RTYPE, true, T>` (primary template, NA-capable
vector operand): scalar `lhs`, vector `rhs`, and `lhs_na` computed once in the
constructor as `is_na(lhs_)`. -/
structure Minus_Primitive_Vector (α : Type) where
  tr : RTypeTraits α
  lhs : α
  rhs : VectorModel α
  lhs_na : Bool

/-- The `Minus_Primitive_Vector` constructor:
`lhs(lhs_), rhs(rhs_.get_ref()), lhs_na(is_na(lhs_))`. -/
def Minus_Primitive_Vector.make {α : Type} (tr : RTypeTraits α) (lhs : α)
    (rhs : VectorModel α) : Minus_Primitive_Vector α :=
  ⟨tr, lhs, rhs, tr.isNA lhs⟩

/-- `operator[]` of the primary `Minus_Primitive_Vector` template:
`if (lhs_na) return lhs; return lhs - rhs[i];` — note there is no NA test on
`rhs[i]`, unlike `Minus_Vector_Vector`. -/
def Minus_Primitive_Vector.get {α : Type} (m : Minus_Primitive_Vector α) (i : Int) : α :=
  if m.lhs_na then m.lhs else m.tr.sub m.lhs (m.rhs.get i)

/-- `size()` of `Minus_Primitive_Vector`: `return rhs.size();` -/
def Minus_Primitive_Vector.size {α : Type} (m : Minus_Primitive_Vector α) : Int :=
  m.rhs.size

/-- R's integer NA (`INT_MIN`), the storage-level NA token for `RTYPE = INTSXP`. -/
def intNA : Int := -2147483648

/-- The `RTYPE = INTSXP` instantiation of the traits bundle:
`is_na` compares with `NA_INTEGER` and `-` is integer subtraction. -/
def intTraits : RTypeTraits Int :=
  ⟨fun x => x = intNA, fun x y => x - y⟩

/-! ## Default-argument translation (AttributesGen.cpp, anonymous namespace)

The helpers below translate C++ default-argument text to R literal text.
Strings are manipulated through their character lists.  `\x27` is the
single-quote character and `\x7b`/`\x7d` are braces. -/

namespace attributes

/-- Whitespace for `std::istream` extraction with the classic locale. -/
def isStreamSpace (c : Char) : Bool :=
  c = ' ' || c = '\t' || c = '\n' || c = '\r' || c = '\x0b' || c = '\x0c'

/-- Model of `argStream >> num` for `double num`: the sentry skips leading
whitespace, then `num_get` stage 2 accepts the longest prefix an automaton for
a decimal field allows — an optional sign, digits with at most one decimal
point, and (only once a mantissa digit was seen) one `e`/`E` with an optional
sign and exponent digits — stopping at the first disallowed continuation, and
stage 3 converts the accumulated field, failing the extraction when the field
has no mantissa digit or ends in a digitless exponent.  On success the unread
remainder of the stream is returned.  (The classic-locale automaton has no
grouping and accepts neither hexadecimal prefixes nor `inf`/`nan`.) -/
def extractDouble (s : List Char) : Option (List Char) :=
  let s1 := s.dropWhile isStreamSpace
  let s2 := match s1 with
            | c :: r => if c = '+' || c = '-' then r else s1
            | [] => []
  let d1 := s2.takeWhile Char.isDigit
  let r1 := s2.dropWhile Char.isDigit
  let mant : List Char × List Char :=
    match r1 with
    | '.' :: r => (r.takeWhile Char.isDigit, r.dropWhile Char.isDigit)
    | _ => ([], r1)
  if d1.isEmpty && mant.1.isEmpty then none
  else
    match mant.2 with
    | c :: r =>
      if c = 'e' || c = 'E' then
        let r3 := match r with
                  | c2 :: rr => if c2 = '+' || c2 = '-' then rr else r
                  | [] => []
        let d3 := r3.takeWhile Char.isDigit
        if d3.isEmpty then none else some (r3.dropWhile Char.isDigit)
      else some mant.2
    | [] => some mant.2

/-- Model of `argStream >> suffix` for `std::string suffix`: skip whitespace,
read a maximal non-whitespace run; fails at end of input. -/
def extractToken (s : List Char) : Option (List Char × List Char) :=
  let s1 := s.dropWhile isStreamSpace
  if s1.isEmpty then none
  else some (s1.takeWhile (fun c => !isStreamSpace c),
             s1.dropWhile (fun c => !isStreamSpace c))

/-- The `L`-suffix test of `cppNumericArgToRArg`, applied to the stream
remainder after the number was read: `if (!argStream.eof()) { argStream >>
suffix; if (argStream.eof() && suffix == "L") ... }`.  The stream is at eof
after an extraction exactly when nothing remains unread. -/
def hasLSuffix (rest : List Char) : Bool :=
  if rest.isEmpty then false
  else
    match extractToken rest with
    | some (tok, r2) => r2.isEmpty && tok = ['L']
    | none => false

/-- `cppNumericArgToRArg`: convert a C++ numeric default argument to an R
argument value; empty string when the text does not parse as a number. -/
def cppNumericArgToRArg (type cppArg : String) : String :=
  match extractDouble cppArg.data with
  | none => ""
  | some rest =>
    if hasLSuffix rest then cppArg
    else if !cppArg.data.contains '.' && type ≠ "double" && type ≠ "float" then
      cppArg ++ "L"
    else cppArg

/-- First index at which `needle` occurs in `hay` (model of
`std::string::find`), `none` when absent. -/
def findSub : List Char → List Char → Option Nat
  | [], n => if n.isEmpty then some 0 else none
  | h :: t, n =>
    if n.isPrefixOf (h :: t) then some 0
    else (findSub t n).map (· + 1)

/-- `cppCreateArgToRArg`: convert a `Type::create(args...)` default to the
matching R constructor call, empty string when not applicable. -/
def cppCreateArgToRArg (cppArg : String) : String :=
  let create : List Char := "::create".data
  match findSub cppArg.data create with
  | none => ""
  | some createLoc =>
    if createLoc + create.length ≥ cppArg.data.length then ""
    else
      let type0 := cppArg.data.take createLoc
      let rcppScope : List Char := "Rcpp::".data
      let type :=
        if findSub type0 rcppScope = some 0 && type0.length > rcppScope.length then
          type0.drop rcppScope.length
        else type0
      let args := String.mk (cppArg.data.drop (createLoc + create.length))
      if type = "CharacterVector".data then "character" ++ args
      else if type = "IntegerVector".data then "integer" ++ args
      else if type = "NumericVector".data then "numeric" ++ args
      else ""

/-- `cppMatrixArgToRArg`: convert a C++ `Matrix(args...)` default to an R
`matrix(args...)` call, empty string when not applicable. -/
def cppMatrixArgToRArg (cppArg : String) : String :=
  let matrix : List Char := "Matrix".data
  match findSub cppArg.data matrix with
  | none => ""
  | some matrixLoc =>
    if matrixLoc + matrix.length ≥ cppArg.data.length then ""
    else "matrix" ++ String.mk (cppArg.data.drop (matrixLoc + matrix.length))

/-- `cppLiteralArgToRArg`: convert a C++ literal keyword to the fixed R token,
empty string when not applicable. -/
def cppLiteralArgToRArg (cppArg : String) : String :=
  if cppArg = "true" then "TRUE"
  else if cppArg = "false" then "FALSE"
  else if cppArg = "R_NilValue" then "NULL"
  else if cppArg = "NA_STRING" || cppArg = "NA_INTEGER" ||
          cppArg = "NA_LOGICAL" || cppArg = "NA_REAL" then "NA"
  else ""

/-- A single or double quote character. -/
def quoteChar (c : Char) : Bool := c = '"' || c = Char.ofNat 39

/-- Modelled from the spec: `isQuoted` lives in `AttributesUtil.cpp` (not part
of the sources here); per the spec an "already-quoted string literal" is a text
that starts and ends with the same quote character. -/
def isQuoted (s : String) : Bool :=
  match s.data with
  | c :: rest =>
    quoteChar c &&
      (match rest.getLast? with
       | some d => d = c
       | none => false)
  | [] => false

/-- `cppArgToRArg`: the ordered fallback chain — quoted string, literal
keyword, `::create` call, `Matrix` call, numeric; empty string on failure. -/
def cppArgToRArg (type cppArg : String) : String :=
  if isQuoted cppArg then cppArg
  else
    let rArg1 := cppLiteralArgToRArg cppArg
    if rArg1 ≠ "" then rArg1
    else
      let rArg2 := cppCreateArgToRArg cppArg
      if rArg2 ≠ "" then rArg2
      else
        let rArg3 := cppMatrixArgToRArg cppArg
        if rArg3 ≠ "" then rArg3
        else
          let rArg4 := cppNumericArgToRArg type cppArg
          if rArg4 ≠ "" then rArg4
          else ""

/-! ## Declaration model (AttributesTypes.h, external input to the core)

Modelled from the spec: the `Type`, `Argument`, `Function`, `Attribute` and
`SourceFileAttributes` records are declared in `AttributesTypes.h`, which is
not among the sources here; the spec's §3 data model gives their shape —
a function has a name, return type, ordered arguments and a hidden flag; an
attribute wraps a function with an exported name, documentation lines and
export status; a source file carries its attributes and which interfaces it
requests. -/

structure TypeInfo where
  name : String
  void : Bool
  deriving DecidableEq

structure Argument where
  name : String
  type : TypeInfo
  defaultValue : String
  deriving DecidableEq

structure Function where
  name : String
  type : TypeInfo
  arguments : List Argument
  hidden : Bool
  deriving DecidableEq

structure Attribute where
  function : Function
  exportedName : String
  roxygen : List String
  isExportedFunction : Bool
  deriving DecidableEq

structure SourceFileAttributes where
  attributes : List Attribute
  hasInterfaceCpp : Bool
  hasInterfaceR : Bool
  deriving DecidableEq

/-- Modelled from the spec: `Function::signature(name)` (AttributesTypes.h,
not among the sources here) builds "a canonical string from the function's
translated return type, translated name, and ordered translated argument
types". -/
def Function.signatureNamed (f : Function) (name : String) : String :=
  f.type.name ++ " " ++ name ++ "(" ++
    String.intercalate ", " (f.arguments.map (fun a => a.type.name)) ++ ")"

/-- Modelled from the spec: `Function::signature()` with no argument uses the
function's own name. -/
def Function.signatureSelf (f : Function) : String :=
  f.signatureNamed f.name

/-- Modelled from the spec: `Function::renamedTo(name)` returns a copy of the
function carrying the exported name in place of the native one. -/
def Function.renamedTo (f : Function) (name : String) : Function :=
  { f with name := name }

/-- `Function::isHidden()` read through the spec's hidden flag. -/
def Function.isHidden (f : Function) : Bool := f.hidden

/-! ## R argument-list generation (`generateRArgList`)

`showWarning` is diagnostic output; the model returns the warning texts next
to the generated string. -/

/-- The translation attempted for one argument's default value. -/
def rArgFor (a : Argument) : String :=
  cppArgToRArg a.type.name a.defaultValue

/-- The text one argument contributes to the R argument list: its name, plus
` = <translated default>` when it has a default that translates. -/
def argFragment (a : Argument) : String :=
  if a.defaultValue = "" then a.name
  else if rArgFor a ≠ "" then a.name ++ " = " ++ rArgFor a
  else a.name

/-- The warning `generateRArgList` raises (via `showWarning`) for one
argument: present exactly when the argument has a default value that fails to
translate. -/
def argWarning (fname : String) (a : Argument) : Option String :=
  if a.defaultValue = "" then none
  else if rArgFor a ≠ "" then none
  else some ("Unable to parse C++ default value \x27" ++ a.defaultValue ++
             "\x27 for argument " ++ a.name ++ " of function " ++ fname)

/-- The loop of `generateRArgList`: each argument's fragment, `", "` after
every argument except the last, warnings in argument order. -/
def generateRArgListAux (fname : String) : List Argument → String × List String
  | [] => ("", [])
  | a :: rest =>
    let r := generateRArgListAux fname rest
    (argFragment a ++ (if rest.isEmpty then "" else ", " ++ r.1),
     (argWarning fname a).toList ++ r.2)

/-- `generateRArgList`: the R argument list for a function, together with the
warnings emitted while building it. -/
def generateRArgList (f : Function) : String × List String :=
  generateRArgListAux f.name f.arguments

/-! ## Generator base contract (`ExportsGenerator`)

A generator owns one target file; the file system is modelled as the content
of that file (`Option String`, `none` when the file does not exist).
`generatorToken()` is a virtual member declared in `AttributesGen.h` (not
among the sources here); the spec calls it the protocol signature, and the
model carries it as opaque state. -/

structure ExportsGenerator where
  targetFile_ : String
  package_ : String
  commentPrefix_ : String
  generatorToken_ : String
  hasCppInterface_ : Bool
  existingCode_ : String
  codeStream_ : String
  deriving DecidableEq

/-- The two generator-marker comment lines `commit` writes first:
`<commentPrefix> This file was generated by Rcpp::compileAttributes` and
`<commentPrefix> Generator token: <token>`. -/
def markerLines (cp token : String) : String :=
  cp ++ " This file was generated by Rcpp::compileAttributes\n" ++
  cp ++ " Generator token: " ++ token ++ "\n"

/-- The complete header `commit` emits: the marker lines and a blank line. -/
def markerHeader (cp token : String) : String :=
  markerLines cp token ++ "\n"

/-- The freshly generated content of a commit: marker header, preamble (the
source appends it only when non-empty — appending the empty string is the
same), then the accumulated buffer. -/
def freshContent (g : ExportsGenerator) (preamble : String) : String :=
  markerHeader g.commentPrefix_ g.generatorToken_ ++ preamble ++ g.codeStream_

/-- `ExportsGenerator::commit(preamble)`: no-op when the buffer is empty and
the target file does not exist; otherwise writes the fresh content exactly
when it differs from the content read at construction.  Returns whether a
write occurred, paired with the resulting file content. -/
def ExportsGenerator.commit (g : ExportsGenerator) (preamble : String)
    (disk : Option String) : Bool × Option String :=
  let code := g.codeStream_
  if code = "" ∧ disk = none then (false, disk)
  else
    let generatedCode := freshContent g preamble
    if generatedCode ≠ g.existingCode_ then (true, some generatedCode)
    else (false, disk)

/-- Modelled from the spec: `isSafeToOverwrite` is declared in
`AttributesGen.h` (not among the sources here); per the spec the check is a
prefix match of the generator marker on the existing file's first lines, and a
missing file is always safe. -/
def isSafeToOverwrite (cp token : String) (disk : Option String) : Bool :=
  match disk with
  | none => true
  | some content => (markerLines cp token).isPrefixOf content

inductive GenError where
  | file_exists (path : String)
  | file_io_error (path : String)
  deriving DecidableEq

/-- The `ExportsGenerator` constructor: records the existing target content
(empty when the file does not exist) and throws `Rcpp::file_exists` before any
write when the existing file is not safe to overwrite.  (The read itself can
also throw `Rcpp::file_io_error`; I/O faults are outside this model.) -/
def ExportsGenerator.construct (targetFile package cp token : String)
    (disk : Option String) : Except GenError ExportsGenerator :=
  let existingCode := disk.getD ""
  if isSafeToOverwrite cp token disk then
    .ok ⟨targetFile, package, cp, token, false, existingCode, ""⟩
  else
    .error (.file_exists targetFile)

/-- Modelled from the spec: `removeFile` (AttributesUtil, not among the
sources here) deletes the target if present and reports whether a deletion
occurred. -/
def removeFile (disk : Option String) : Bool × Option String :=
  (disk.isSome, none)

/-- `ExportsGenerator::remove()`: delete the generated file entirely. -/
def ExportsGenerator.removeTarget (disk : Option String) : Bool × Option String :=
  removeFile disk

/-- The flag update of `ExportsGenerator::writeFunctions`: record that some
processed file requested the C++ (cross-extension) interface. -/
def ExportsGenerator.updateInterfaceFlag (g : ExportsGenerator)
    (f : SourceFileAttributes) : ExportsGenerator :=
  if f.hasInterfaceCpp then { g with hasCppInterface_ := true } else g

/-! ## Call-adapter generator (`CppExportsGenerator`) — signature registry

`doWriteFunctions` collects, for every processed file requesting the C++
interface, the exported attributes whose renamed function is not hidden into
`cppExports_`; `writeEnd` later inserts
`attr.function().signature(attr.exportedName())` for each of them into the
generated validation set. -/

/-- The filter of `CppExportsGenerator::doWriteFunctions`: exported, and the
function renamed to its exported name is not hidden. -/
def cppExportFilter (a : Attribute) : Bool :=
  a.isExportedFunction && !(a.function.renamedTo a.exportedName).isHidden

/-- `cppExports_` after processing a batch of files, in processing order. -/
def cppExports : List SourceFileAttributes → List Attribute
  | [] => []
  | f :: rest =>
    (if f.hasInterfaceCpp then f.attributes.filter cppExportFilter else []) ++
      cppExports rest

/-- The signature strings `CppExportsGenerator::writeEnd` inserts into the
generated `signatures` set, in emission order. -/
def registeredSignatures (files : List SourceFileAttributes) : List String :=
  (cppExports files).map (fun a => a.function.signatureNamed a.exportedName)

/-- The signature string `CppExportsIncludeGenerator::doWriteFunctions` passes
to `validateSignature` for one attribute, `none` when the attribute produces
no wrapper. -/
def validatedSignatureOf (a : Attribute) : Option String :=
  if a.isExportedFunction then
    let function := a.function.renamedTo a.exportedName
    if function.isHidden then none else some function.signatureSelf
  else none

/-- The signature strings the cross-extension header generator passes to
`validateSignature` across a batch of files, in emission order. -/
def validatedSignatures : List SourceFileAttributes → List String
  | [] => []
  | f :: rest =>
    (if f.hasInterfaceCpp then f.attributes.filterMap validatedSignatureOf
     else []) ++ validatedSignatures rest

/-! ## Cross-extension header generator (`CppExportsIncludeGenerator`) -/

/-- `CppExportsIncludeGenerator::getCCallable`. -/
def getCCallable (package function : String) : String :=
  "R_GetCCallable(\"" ++ package ++ "\", \"" ++ function ++ "\")"

/-- Modelled from the spec: `operator<<` for `Function` (AttributesTypes, not
among the sources here) prints the declaration the inline wrapper carries —
return type, name, and the typed argument list with default values. -/
def printFunction (f : Function) : String :=
  f.type.name ++ " " ++ f.name ++ "(" ++
    String.intercalate ", "
      (f.arguments.map (fun a =>
        a.type.name ++ " " ++ a.name ++
          (if a.defaultValue = "" then "" else " = " ++ a.defaultValue))) ++ ")"

/-- The inline wrapper `CppExportsIncludeGenerator::doWriteFunctions` emits
for one exported, non-hidden attribute (empty for the others). -/
def cppIncludeWrapperText (package : String) (a : Attribute) : String :=
  if !a.isExportedFunction then ""
  else
    let function := a.function.renamedTo a.exportedName
    if function.isHidden then ""
    else
      let fnType := "Ptr_" ++ function.name
      let ptrName := "p_" ++ function.name
      let args := function.arguments
      "    inline " ++ printFunction function ++ " \x7b\n" ++
      "        typedef SEXP(*" ++ fnType ++ ")(" ++
        String.intercalate "," (args.map (fun _ => "SEXP")) ++ ");\n" ++
      "        static " ++ fnType ++ " " ++ ptrName ++ " = NULL;\n" ++
      "        if (" ++ ptrName ++ " == NULL) \x7b\n" ++
      "            validateSignature(\"" ++ function.signatureSelf ++ "\");\n" ++
      "            " ++ ptrName ++ " = (" ++ fnType ++ ")" ++
        getCCallable package (package ++ "_" ++ function.name) ++ ";\n" ++
      "        \x7d\n" ++
      "        SEXP resultSEXP = " ++ ptrName ++ "(" ++
        String.intercalate ", "
          (args.map (fun arg => "Rcpp::wrap(" ++ arg.name ++ ")")) ++ ");\n" ++
      "        return Rcpp::as<" ++ function.type.name ++ " >(resultSEXP);\n" ++
      "    \x7d\n\n"

namespace CppExportsIncludeGenerator

/-- `CppExportsIncludeGenerator::doWriteFunctions`: nothing when the file does
not request the C++ interface, else one inline wrapper per exported,
non-hidden function. -/
def doWriteFunctions (g : ExportsGenerator) (f : SourceFileAttributes) :
    ExportsGenerator :=
  if !f.hasInterfaceCpp then g
  else
    { g with codeStream_ := g.codeStream_ ++
        String.join (f.attributes.map (cppIncludeWrapperText g.package_)) }

/-- `ExportsGenerator::writeFunctions` specialised to this generator: update
the interface flag, then delegate to `doWriteFunctions`. -/
def writeFunctions (g : ExportsGenerator) (f : SourceFileAttributes) :
    ExportsGenerator :=
  doWriteFunctions (g.updateInterfaceFlag f) f

/-- Processing a batch of source files in order. -/
def processFiles (g : ExportsGenerator) (files : List SourceFileAttributes) :
    ExportsGenerator :=
  files.foldl writeFunctions g

/-- `CppExportsIncludeGenerator::getHeaderGuard`. -/
def getHeaderGuard (package : String) : String :=
  "__" ++ package ++ "_RcppExports_h__"

/-- The preamble `CppExportsIncludeGenerator::commit` builds: header guard,
then the includes (each on its own line, followed by a blank line, when there
are any). -/
def commitPreamble (package : String) (includes : List String) : String :=
  "#ifndef " ++ getHeaderGuard package ++ "\n" ++
  "#define " ++ getHeaderGuard package ++ "\n\n" ++
  (if includes.isEmpty then ""
   else String.join (includes.map (· ++ "\n")) ++ "\n")

/-- `CppExportsIncludeGenerator::commit`: with a C++ interface, the normal
write-if-changed commit with the header-guard preamble (directory creation is
a file-system side effect outside the model); without one, remove the target
instead. -/
def commit (g : ExportsGenerator) (includes : List String)
    (disk : Option String) : Bool × Option String :=
  if g.hasCppInterface_ then
    ExportsGenerator.commit g (commitPreamble g.package_ includes) disk
  else removeFile disk

end CppExportsIncludeGenerator

/-! ## Umbrella header generator (`CppPackageIncludeGenerator`) -/

namespace CppPackageIncludeGenerator

/-- Modelled from the spec: the umbrella generator "never scans functions
directly" — its `doWriteFunctions` override (declared in `AttributesGen.h`,
not among the sources here) emits nothing. -/
def doWriteFunctions (g : ExportsGenerator) (_f : SourceFileAttributes) :
    ExportsGenerator := g

/-- `ExportsGenerator::writeFunctions` specialised to this generator. -/
def writeFunctions (g : ExportsGenerator) (f : SourceFileAttributes) :
    ExportsGenerator :=
  doWriteFunctions (g.updateInterfaceFlag f) f

/-- Processing a batch of source files in order. -/
def processFiles (g : ExportsGenerator) (files : List SourceFileAttributes) :
    ExportsGenerator :=
  files.foldl writeFunctions g

/-- `CppPackageIncludeGenerator::commit`: with a C++ interface, the normal
write-if-changed commit (`ExportsGenerator::commit()` with its default empty
preamble); without one, remove the target instead. -/
def commit (g : ExportsGenerator) (_includes : List String)
    (disk : Option String) : Bool × Option String :=
  if g.hasCppInterface_ then ExportsGenerator.commit g "" disk
  else removeFile disk

end CppPackageIncludeGenerator

/-! ## Host-language wrapper generator (`RExportsGenerator`) -/

namespace RExportsGenerator

/-- The text `RExportsGenerator::doWriteFunctions` emits for one exported
attribute: roxygen lines, then
`<name> <- function(<args>) \x7b\n    [invisible(].Call('<pkg>_<fn>', PACKAGE = '<pkg>', <args...>)[)]\n\x7d\n\n`. -/
def rFunctionText (package : String) (a : Attribute) : String :=
  if !a.isExportedFunction then ""
  else
    let function := a.function
    String.join (a.roxygen.map (· ++ "\n")) ++
    a.exportedName ++ " <- function(" ++ (generateRArgList function).1 ++
      ") \x7b\n" ++
    "    " ++ (if function.type.void then "invisible(" else "") ++
    ".Call(\x27" ++ package ++ "_" ++ function.name ++ "\x27, PACKAGE = \x27" ++
      package ++ "\x27" ++
    String.join (function.arguments.map (fun arg => ", " ++ arg.name)) ++ ")" ++
    (if function.type.void then ")" else "") ++ "\n" ++
    "\x7d\n\n"

/-- `RExportsGenerator::doWriteFunctions`: nothing when the file does not
request the R interface, else one wrapper per exported attribute. -/
def doWriteFunctions (g : ExportsGenerator) (f : SourceFileAttributes) :
    ExportsGenerator :=
  if f.hasInterfaceR then
    { g with codeStream_ := g.codeStream_ ++
        String.join (f.attributes.map (rFunctionText g.package_)) }
  else g

end RExportsGenerator

/-! ## The spec's example scenario: `add(x = 1, y = 2.5)` in package `pkg` -/

def addFunction : Function :=
  { name := "add"
    type := { name := "double", void := false }
    arguments :=
      [ { name := "x", type := { name := "int", void := false },
          defaultValue := "1" }
      , { name := "y", type := { name := "double", void := false },
          defaultValue := "2.5" } ]
    hidden := false }

def addAttribute : Attribute :=
  { function := addFunction
    exportedName := "add"
    roxygen := []
    isExportedFunction := true }

def addFile : SourceFileAttributes :=
  { attributes := [addAttribute]
    hasInterfaceCpp := true
    hasInterfaceR := true }

/-- A fresh `RExportsGenerator` for package `pkg` (target `P/R/RcppExports.R`,
comment prefix `#`). -/
def pkgRGen : ExportsGenerator :=
  { targetFile_ := "pkg/R/RcppExports.R"
    package_ := "pkg"
    commentPrefix_ := "#"
    generatorToken_ := "tok"
    hasCppInterface_ := false
    existingCode_ := ""
    codeStream_ := "" }

/-! ## Concrete generator instances used in the evaluation theorems -/

/-- A generator with a pending buffer and no pre-existing target. -/
def c1Gen : ExportsGenerator :=
  { targetFile_ := "pkg/src/RcppExports.cpp"
    package_ := "pkg"
    commentPrefix_ := "//"
    generatorToken_ := "tok"
    hasCppInterface_ := false
    existingCode_ := ""
    codeStream_ := "body" }

/-- A freshly constructed cross-extension header generator. -/
def incGen : ExportsGenerator :=
  { targetFile_ := "pkg/inst/include/pkg_RcppExports.h"
    package_ := "pkg"
    commentPrefix_ := "//"
    generatorToken_ := "tok"
    hasCppInterface_ := false
    existingCode_ := ""
    codeStream_ := "" }

/-- A freshly constructed umbrella header generator. -/
def umbGen : ExportsGenerator :=
  { targetFile_ := "pkg/inst/include/pkg.h"
    package_ := "pkg"
    commentPrefix_ := "//"
    generatorToken_ := "tok"
    hasCppInterface_ := false
    existingCode_ := ""
    codeStream_ := "" }

/-- An argument with a translatable default. -/
def c5xArg : Argument :=
  { name := "x", type := { name := "int", void := false }, defaultValue := "1" }

/-- An argument whose default matches none of the translation patterns. -/
def c5BadArg : Argument :=
  { name := "b", type := { name := "SEXP", void := false },
    defaultValue := "foo(bar)" }

/-- A function with one translatable default and one unparseable default. -/
def c5Function : Function :=
  { name := "fn"
    type := { name := "void", void := true }
    arguments := [c5xArg, c5BadArg]
    hidden := false }

end attributes

end Rcpp

/-! # Theorems -/

namespace Rcpp

/-- C9: for the elementwise vector-minus-vector sugar expression
(`Minus_Vector_Vector`, both operands NA-capable), each result element is the
left element when that is NA, else the right element when that is NA, else
their difference; and the expression's size is the left operand's size,
irrespective of the right operand's size. -/
theorem claim_C9_minus_vector_vector {α : Type} (tr : RTypeTraits α)
    (lhs rhs : VectorModel α) (i : Int) :
    (Minus_Vector_Vector.mk tr lhs rhs).get i =
      (if tr.isNA (lhs.get i) then lhs.get i
       else if tr.isNA (rhs.get i) then rhs.get i
       else tr.sub (lhs.get i) (rhs.get i)) ∧
    (Minus_Vector_Vector.mk tr lhs rhs).size = lhs.size ∧
    ∀ rhs' : VectorModel α,
      (Minus_Vector_Vector.mk tr lhs rhs').size =
        (Minus_Vector_Vector.mk tr lhs rhs).size :=
  ⟨rfl, rfl, fun _ => rfl⟩

/-- C10: for the scalar-minus-vector sugar expression
(`Minus_Primitive_Vector`, NA-capable vector operand), an NA scalar makes
every result element that NA scalar regardless of the vector, while a non-NA
scalar yields the raw difference with the vector element — no NA test is
applied to the vector element, so vector NAs are not explicitly propagated. -/
theorem claim_C10_minus_primitive_vector {α : Type} (tr : RTypeTraits α)
    (s : α) (v : VectorModel α) :
    (tr.isNA s = true → ∀ i : Int,
      (Minus_Primitive_Vector.make tr s v).get i = s) ∧
    (tr.isNA s = false → ∀ i : Int,
      (Minus_Primitive_Vector.make tr s v).get i = tr.sub s (v.get i)) ∧
    (Minus_Primitive_Vector.make tr s v).size = v.size := by
  refine ⟨fun h i => ?_, fun h i => ?_, rfl⟩ <;>
    simp [Minus_Primitive_Vector.get, Minus_Primitive_Vector.make, h]

/-- Witness for C10 at the integer instantiation: the scalar 5 is not NA, and
the result at index 0 is the raw difference with the vector's NA element. -/
theorem claim_C10_witness :
    intTraits.isNA 5 = false ∧
    (Minus_Primitive_Vector.make intTraits 5 ⟨1, fun _ => intNA⟩).get 0 =
      intTraits.sub 5 intNA :=
  ⟨by decide,
   (claim_C10_minus_primitive_vector intTraits 5 ⟨1, fun _ => intNA⟩).2.1
     (by decide) 0⟩

namespace attributes

/-- C8: the literal translator maps `true`/`false`/`R_NilValue` and the four
NA variants to their fixed R tokens, and every already-quoted string is passed
through `cppArgToRArg` unchanged before any other pattern is tried. -/
theorem claim_C8_literal_translation :
    cppLiteralArgToRArg "true" = "TRUE" ∧
    cppLiteralArgToRArg "false" = "FALSE" ∧
    cppLiteralArgToRArg "R_NilValue" = "NULL" ∧
    cppLiteralArgToRArg "NA_STRING" = "NA" ∧
    cppLiteralArgToRArg "NA_INTEGER" = "NA" ∧
    cppLiteralArgToRArg "NA_LOGICAL" = "NA" ∧
    cppLiteralArgToRArg "NA_REAL" = "NA" ∧
    ∀ ty s : String, isQuoted s = true → cppArgToRArg ty s = s := by
  refine ⟨by decide, by decide, by decide, by decide, by decide, by decide,
          by decide, fun ty s h => ?_⟩
  simp [cppArgToRArg, h]

/-- Witness for C8: the single-quoted literal `'abc'` is quoted and passes
through unchanged. -/
theorem claim_C8_witness :
    isQuoted "\x27abc\x27" = true ∧
    cppArgToRArg "SEXP" "\x27abc\x27" = "\x27abc\x27" :=
  ⟨by decide,
   claim_C8_literal_translation.2.2.2.2.2.2.2 "SEXP" "\x27abc\x27" (by decide)⟩

/-- C4: a default text that parses as a number is returned unchanged when it
carries the integer literal suffix `L`; otherwise it gets `L` appended exactly
when it has no decimal point and the declared type is neither `double` nor
`float`; a text that does not parse as a number yields the empty result. -/
theorem claim_C4_numeric_translation (ty arg : String) :
    (extractDouble arg.data = none → cppNumericArgToRArg ty arg = "") ∧
    (∀ rest : List Char, extractDouble arg.data = some rest →
      cppNumericArgToRArg ty arg =
        (if hasLSuffix rest then arg
         else if !arg.data.contains '.' && ty ≠ "double" && ty ≠ "float" then
           arg ++ "L"
         else arg)) := by
  constructor
  · intro h; simp [cppNumericArgToRArg, h]
  · intro rest h; simp [cppNumericArgToRArg, h]

/-- Witness for C4: `1` parses as a number with nothing left over, and for the
declared type `int` it becomes `1L`. -/
theorem claim_C4_witness :
    extractDouble "1".data = some [] ∧ cppNumericArgToRArg "int" "1" = "1L" := by
  refine ⟨by decide, ?_⟩
  have h := (claim_C4_numeric_translation "int" "1").2 [] (by decide)
  rw [h]; decide

/-- C1: `commit` is a no-op returning `false` when the buffer is empty and the
target file does not exist; otherwise it writes the freshly generated content
(marker header, preamble, buffer) and returns `true` exactly when that content
differs from the content read at construction, and leaves the file untouched
returning `false` when it is identical. -/
theorem claim_C1_commit (g : ExportsGenerator) (preamble : String)
    (disk : Option String) :
    (g.codeStream_ = "" ∧ disk = none →
       ExportsGenerator.commit g preamble disk = (false, disk)) ∧
    (¬(g.codeStream_ = "" ∧ disk = none) →
       (freshContent g preamble ≠ g.existingCode_ →
          ExportsGenerator.commit g preamble disk =
            (true, some (freshContent g preamble))) ∧
       (freshContent g preamble = g.existingCode_ →
          ExportsGenerator.commit g preamble disk = (false, disk))) := by
  refine ⟨fun h => ?_, fun h => ⟨fun hne => ?_, fun heq => ?_⟩⟩
  · simp [ExportsGenerator.commit, h]
  · simp [ExportsGenerator.commit, h, hne]
  · simp only [ExportsGenerator.commit, if_neg h, heq, ne_eq,
      not_true_eq_false, if_false]

/-- Witness for C1: a generator with buffer `body` and no pre-existing file
writes the marker header, preamble and buffer and reports a change. -/
theorem claim_C1_witness :
    ExportsGenerator.commit c1Gen "pre" none =
      (true, some ("// This file was generated by Rcpp::compileAttributes\n" ++
                   "// Generator token: tok\n\nprebody")) := by
  have h := ((claim_C1_commit c1Gen "pre" none).2 (by decide)).1 (by decide)
  rw [h]; decide

/-- C3: construction fails with a file-already-exists error (before any write)
when the target exists without the generator-marker lines as a prefix, and
succeeds, recording the existing content, when the target is absent or carries
the marker. -/
theorem claim_C3_construct (tf pkg cp token : String) (disk : Option String) :
    (∀ c : String, disk = some c → (markerLines cp token).isPrefixOf c = false →
       ExportsGenerator.construct tf pkg cp token disk =
         .error (.file_exists tf)) ∧
    ((disk = none ∨
        ∃ c : String, disk = some c ∧ (markerLines cp token).isPrefixOf c = true) →
       ExportsGenerator.construct tf pkg cp token disk =
         .ok ⟨tf, pkg, cp, token, false, disk.getD "", ""⟩) := by
  constructor
  · intro c hdisk hpref
    subst hdisk
    simp [ExportsGenerator.construct, isSafeToOverwrite, hpref]
  · intro h
    rcases h with h | ⟨c, hdisk, hpref⟩
    · subst h; simp [ExportsGenerator.construct, isSafeToOverwrite]
    · subst hdisk; simp [ExportsGenerator.construct, isSafeToOverwrite, hpref]

/-- Witness for C3: a hand-written file (marker missing) makes construction
fail with `file_exists`. -/
theorem claim_C3_witness :
    ExportsGenerator.construct "f" "p" "//" "tok" (some "hand written") =
      .error (.file_exists "f") :=
  (claim_C3_construct "f" "p" "//" "tok" (some "hand written")).1
    "hand written" rfl (by decide)

/-- `CppExportsIncludeGenerator::doWriteFunctions` never touches the
cross-extension interface flag. -/
theorem includeDoWrite_flag (g : ExportsGenerator) (f : SourceFileAttributes) :
    (CppExportsIncludeGenerator.doWriteFunctions g f).hasCppInterface_ =
      g.hasCppInterface_ := by
  by_cases h : f.hasInterfaceCpp <;>
    simp [CppExportsIncludeGenerator.doWriteFunctions, h]

/-- The flag update of `writeFunctions` records whether this file requests the
C++ interface. -/
theorem updateInterfaceFlag_flag (g : ExportsGenerator)
    (f : SourceFileAttributes) :
    (g.updateInterfaceFlag f).hasCppInterface_ =
      (g.hasCppInterface_ || f.hasInterfaceCpp) := by
  by_cases h : f.hasInterfaceCpp <;>
    simp [ExportsGenerator.updateInterfaceFlag, h]

/-- After the cross-extension header generator processes a batch, its flag
records whether any processed file requested the C++ interface. -/
theorem includeProcessFiles_flag (files : List SourceFileAttributes)
    (g : ExportsGenerator) :
    (CppExportsIncludeGenerator.processFiles g files).hasCppInterface_ =
      (g.hasCppInterface_ || files.any (fun f => f.hasInterfaceCpp)) := by
  induction files generalizing g with
  | nil => simp [CppExportsIncludeGenerator.processFiles]
  | cons f rest ih =>
    have h1 : CppExportsIncludeGenerator.processFiles g (f :: rest) =
        CppExportsIncludeGenerator.processFiles
          (CppExportsIncludeGenerator.writeFunctions g f) rest := rfl
    rw [h1, ih]
    simp [CppExportsIncludeGenerator.writeFunctions, includeDoWrite_flag,
      updateInterfaceFlag_flag, Bool.or_assoc]

/-- After the umbrella header generator processes a batch, its flag records
whether any processed file requested the C++ interface. -/
theorem umbrellaProcessFiles_flag (files : List SourceFileAttributes)
    (g : ExportsGenerator) :
    (CppPackageIncludeGenerator.processFiles g files).hasCppInterface_ =
      (g.hasCppInterface_ || files.any (fun f => f.hasInterfaceCpp)) := by
  induction files generalizing g with
  | nil => simp [CppPackageIncludeGenerator.processFiles]
  | cons f rest ih =>
    have h1 : CppPackageIncludeGenerator.processFiles g (f :: rest) =
        CppPackageIncludeGenerator.processFiles
          (CppPackageIncludeGenerator.writeFunctions g f) rest := rfl
    rw [h1, ih]
    simp [CppPackageIncludeGenerator.writeFunctions,
      CppPackageIncludeGenerator.doWriteFunctions, updateInterfaceFlag_flag,
      Bool.or_assoc]

/-- C6: when no processed file requests the cross-extension interface, the
cross-extension header and umbrella header commits remove their targets
(deleting any existing file, creating none); when some file requests it, both
commit through the normal write-if-changed path. -/
theorem claim_C6_conditional_artifacts (g1 g2 : ExportsGenerator)
    (files : List SourceFileAttributes) (includes : List String)
    (disk1 disk2 : Option String)
    (h1 : g1.hasCppInterface_ = false) (h2 : g2.hasCppInterface_ = false) :
    (files.any (fun f => f.hasInterfaceCpp) = false →
       CppExportsIncludeGenerator.commit
           (CppExportsIncludeGenerator.processFiles g1 files) includes disk1 =
         (disk1.isSome, none) ∧
       CppPackageIncludeGenerator.commit
           (CppPackageIncludeGenerator.processFiles g2 files) includes disk2 =
         (disk2.isSome, none)) ∧
    (files.any (fun f => f.hasInterfaceCpp) = true →
       CppExportsIncludeGenerator.commit
           (CppExportsIncludeGenerator.processFiles g1 files) includes disk1 =
         ExportsGenerator.commit
           (CppExportsIncludeGenerator.processFiles g1 files)
           (CppExportsIncludeGenerator.commitPreamble
             (CppExportsIncludeGenerator.processFiles g1 files).package_
             includes)
           disk1 ∧
       CppPackageIncludeGenerator.commit
           (CppPackageIncludeGenerator.processFiles g2 files) includes disk2 =
         ExportsGenerator.commit
           (CppPackageIncludeGenerator.processFiles g2 files) "" disk2) := by
  constructor
  · intro hnone
    have f1 : (CppExportsIncludeGenerator.processFiles g1 files).hasCppInterface_ =
        false := by rw [includeProcessFiles_flag, h1, hnone]; rfl
    have f2 : (CppPackageIncludeGenerator.processFiles g2 files).hasCppInterface_ =
        false := by rw [umbrellaProcessFiles_flag, h2, hnone]; rfl
    constructor
    · simp [CppExportsIncludeGenerator.commit, f1, removeFile]
    · simp [CppPackageIncludeGenerator.commit, f2, removeFile]
  · intro hsome
    have f1 : (CppExportsIncludeGenerator.processFiles g1 files).hasCppInterface_ =
        true := by rw [includeProcessFiles_flag, h1, hsome]; rfl
    have f2 : (CppPackageIncludeGenerator.processFiles g2 files).hasCppInterface_ =
        true := by rw [umbrellaProcessFiles_flag, h2, hsome]; rfl
    constructor
    · simp [CppExportsIncludeGenerator.commit, f1]
    · simp [CppPackageIncludeGenerator.commit, f2]

/-- Witness for C6: an empty batch requests no C++ interface, so both commits
delete their stale targets. -/
theorem claim_C6_witness :
    CppExportsIncludeGenerator.commit
        (CppExportsIncludeGenerator.processFiles incGen []) [] (some "stale") =
      (true, none) ∧
    CppPackageIncludeGenerator.commit
        (CppPackageIncludeGenerator.processFiles umbGen []) [] (some "stale") =
      (true, none) := by
  have h := (claim_C6_conditional_artifacts incGen umbGen [] [] (some "stale")
    (some "stale") rfl rfl).1 rfl
  exact ⟨h.1, h.2⟩

/-- Over one file's attribute list, mapping the adapter generator's signature
expression over its filtered exports equals the header generator's
`filterMap`ped validated signatures. -/
theorem filter_signatures_eq (l : List Attribute) :
    (l.filter cppExportFilter).map
        (fun a => a.function.signatureNamed a.exportedName) =
      l.filterMap validatedSignatureOf := by
  induction l with
  | nil => rfl
  | cons a t ih =>
    by_cases hexp : a.isExportedFunction = true
    · by_cases hh : a.function.hidden = true
      · simp [List.filter, List.filterMap, cppExportFilter, validatedSignatureOf,
          Function.renamedTo, Function.isHidden, hexp, hh, ih]
      · simp only [Bool.not_eq_true] at hh
        have hhid : (a.function.renamedTo a.exportedName).isHidden = false := hh
        have hfilter : cppExportFilter a = true := by
          simp [cppExportFilter, hexp, hhid]
        have hval : validatedSignatureOf a =
            some (a.function.signatureNamed a.exportedName) := by
          unfold validatedSignatureOf
          rw [if_pos hexp, if_neg (by simp [hhid])]
          rfl
        simp [List.filter, List.filterMap, hfilter, hval, ih]
    · simp only [Bool.not_eq_true] at hexp
      simp [List.filter, List.filterMap, cppExportFilter, validatedSignatureOf,
        hexp, ih]

/-- C2: the signature strings the call-adapter generator inserts into the
generated validation set equal, file by file and function by function, the
signature strings the cross-extension header generator passes to
`validateSignature`; pointwise, the string built from the original function
and its exported name is the string built from the renamed function. -/
theorem claim_C2_signature_join (files : List SourceFileAttributes) :
    registeredSignatures files = validatedSignatures files ∧
    ∀ a : Attribute,
      a.function.signatureNamed a.exportedName =
        (a.function.renamedTo a.exportedName).signatureSelf := by
  refine ⟨?_, fun a => rfl⟩
  induction files with
  | nil => rfl
  | cons f rest ih =>
    show (cppExports (f :: rest)).map _ = _
    rw [cppExports, List.map_append]
    show _ ++ registeredSignatures rest = validatedSignatures (f :: rest)
    rw [ih, validatedSignatures]
    by_cases h : f.hasInterfaceCpp = true
    · simp [h, filter_signatures_eq]
    · simp only [Bool.not_eq_true] at h
      simp [h]

/-- A warning produced for an argument of the list is among the warnings of
the generated R argument list. -/
theorem argWarning_mem (fname : String) (l : List Argument) (a : Argument)
    (w : String) (ha : a ∈ l) (hw : argWarning fname a = some w) :
    w ∈ (generateRArgListAux fname l).2 := by
  induction l with
  | nil => cases ha
  | cons b t ih =>
    rcases List.mem_cons.mp ha with h | h
    · subst h
      simp [generateRArgListAux, hw]
    · simp only [generateRArgListAux]
      exact List.mem_append_right _ (ih h)

/-- The generated argument string depends on an argument only through its
fragment. -/
theorem generateRArgList_fst_congr (fname : String) (pre post : List Argument)
    (a a' : Argument) (h : argFragment a = argFragment a') :
    (generateRArgListAux fname (pre ++ a :: post)).1 =
      (generateRArgListAux fname (pre ++ a' :: post)).1 := by
  induction pre with
  | nil => simp [generateRArgListAux, h]
  | cons p pre ih =>
    have e1 : (pre ++ a :: post).isEmpty = false := by cases pre <;> rfl
    have e2 : (pre ++ a' :: post).isEmpty = false := by cases pre <;> rfl
    show argFragment p ++
        (if (pre ++ a :: post).isEmpty then ""
         else ", " ++ (generateRArgListAux fname (pre ++ a :: post)).1) =
      argFragment p ++
        (if (pre ++ a' :: post).isEmpty then ""
         else ", " ++ (generateRArgListAux fname (pre ++ a' :: post)).1)
    rw [ih, e1, e2]

/-- C5: a default value matched by none of the translation patterns makes the
translator return the empty result; the R argument-list generator then records
a warning naming the value, the argument and the function, emits that
parameter with no default (exactly as if it had none), and still generates
every other argument. -/
theorem claim_C5_graceful_degradation (f : Function) (pre post : List Argument)
    (a : Argument)
    (hargs : f.arguments = pre ++ a :: post)
    (hne : a.defaultValue ≠ "")
    (hq : isQuoted a.defaultValue = false)
    (hlit : cppLiteralArgToRArg a.defaultValue = "")
    (hcre : cppCreateArgToRArg a.defaultValue = "")
    (hmat : cppMatrixArgToRArg a.defaultValue = "")
    (hnum : cppNumericArgToRArg a.type.name a.defaultValue = "") :
    cppArgToRArg a.type.name a.defaultValue = "" ∧
    argFragment a = a.name ∧
    ("Unable to parse C++ default value \x27" ++ a.defaultValue ++
        "\x27 for argument " ++ a.name ++ " of function " ++ f.name) ∈
      (generateRArgList f).2 ∧
    (generateRArgList f).1 =
      (generateRArgListAux f.name
        (pre ++ { a with defaultValue := "" } :: post)).1 := by
  have htr : cppArgToRArg a.type.name a.defaultValue = "" := by
    simp [cppArgToRArg, hq, hlit, hcre, hmat, hnum]
  have hfrag : argFragment a = a.name := by
    simp [argFragment, hne, rArgFor, htr]
  have hwarn : argWarning f.name a =
      some ("Unable to parse C++ default value \x27" ++ a.defaultValue ++
        "\x27 for argument " ++ a.name ++ " of function " ++ f.name) := by
    simp [argWarning, hne, rArgFor, htr]
  refine ⟨htr, hfrag, ?_, ?_⟩
  · exact argWarning_mem f.name f.arguments a _
      (by rw [hargs]; exact List.mem_append_right _ (List.mem_cons_self a _))
      hwarn
  · show (generateRArgListAux f.name f.arguments).1 = _
    rw [hargs]
    exact generateRArgList_fst_congr f.name pre post a _
      (by rw [hfrag]; rfl)

/-- Witness for C5: the default `foo(bar)` of argument `b` of function `fn`
matches no pattern; the warning names all three and the generated list keeps
`b` with no default while still translating `x = 1L`. -/
theorem claim_C5_witness :
    ("Unable to parse C++ default value \x27foo(bar)\x27 for argument b of function fn") ∈
      (generateRArgList c5Function).2 ∧
    (generateRArgList c5Function).1 = "x = 1L, b" := by
  have h := claim_C5_graceful_degradation c5Function [c5xArg] [] c5BadArg rfl
    (by decide) (by decide) (by decide) (by decide) (by decide) (by decide)
  refine ⟨h.2.2.1, ?_⟩
  rw [h.2.2.2]; decide

/-- C7 counterexample: for the spec's `add(x = 1, y = 2.5)` scenario in
package `pkg`, the generated wrapper's `.Call` carries `PACKAGE = 'pkg'`
between the adapter key and the arguments, so its body is not
`.Call('pkg_add', x, y)` as the claim states. -/
theorem claim_C7_counterexample :
    (RExportsGenerator.doWriteFunctions pkgRGen addFile).codeStream_ =
      "add <- function(x = 1L, y = 2.5) \x7b\n    .Call(\x27pkg_add\x27, PACKAGE = \x27pkg\x27, x, y)\n\x7d\n\n" ∧
    (RExportsGenerator.doWriteFunctions pkgRGen addFile).codeStream_ ≠
      "add <- function(x = 1L, y = 2.5) \x7b\n    .Call(\x27pkg_add\x27, x, y)\n\x7d\n\n" := by
  constructor
  · decide
  · decide

/-- C7 (amended): the generated host-language wrapper for the scenario is
`add <- function(x = 1L, y = 2.5)` whose body is
`.Call('pkg_add', PACKAGE = 'pkg', x, y)` — the adapter key, then the
`PACKAGE = 'pkg'` argument, then exactly the arguments `x` and `y`. -/
theorem claim_C7_amended :
    (RExportsGenerator.doWriteFunctions pkgRGen addFile).codeStream_ =
      "add <- function(x = 1L, y = 2.5) \x7b\n    .Call(\x27pkg_add\x27, PACKAGE = \x27pkg\x27, x, y)\n\x7d\n\n" := by
  decide

end attributes

end Rcpp
